import Mathlib

/-!
# Verification of the CaDDN frustum grid generator

Shallow embedding of `pcdet/models/backbones_3d/f2v/frustum_grid_generator.py`
and proofs about it.

Real values computed by the program are modelled by `XVal`: rationals extended
with the two signed infinities and a NaN, with arithmetic following the IEEE
special-value rules for the operations the program uses (the finite arithmetic
itself is exact rational arithmetic, which is faithful to the source up to
rounding; none of the claims below depend on rounding).

Helper routines of the repository that are imported by the source file but are
not part of the given sources (`transform_utils.project_to_image`,
`grid_utils.normalize_coords`, `depth_utils.bin_depths`) are modelled from the
specification text; each such definition carries a doc comment starting with
`Modelled from the spec:`.  The two `kornia` primitives used by the source
(`create_meshgrid3d`, `transform_points`) are external-library functions and
are modelled from their documented behaviour.
-/

attribute [local semireducible] Rat.mul Rat.add Rat.sub Rat.inv

/-- An IEEE-style extended value: a finite rational, a signed infinity, or NaN. -/
inductive XVal where
  | fin (q : ℚ)
  | pinf
  | ninf
  | nan
deriving DecidableEq, Repr

namespace XVal

/-- Finiteness test, mirroring `torch.isfinite`. -/
def isFinite : XVal → Bool
  | fin _ => true
  | _ => false

/-- IEEE negation. -/
def neg : XVal → XVal
  | fin q => fin (-q)
  | pinf => ninf
  | ninf => pinf
  | nan => nan

/-- IEEE addition: NaN propagates, opposite infinities give NaN. -/
def add : XVal → XVal → XVal
  | fin a, fin b => fin (a + b)
  | fin _, x => x
  | x, fin _ => x
  | nan, _ => nan
  | _, nan => nan
  | pinf, pinf => pinf
  | ninf, ninf => ninf
  | pinf, ninf => nan
  | ninf, pinf => nan

/-- IEEE subtraction, as addition of the negation. -/
def sub (a b : XVal) : XVal := add a (neg b)

/-- IEEE multiplication: NaN propagates, infinity times zero gives NaN. -/
def mul : XVal → XVal → XVal
  | fin a, fin b => fin (a * b)
  | nan, _ => nan
  | _, nan => nan
  | pinf, pinf => pinf
  | pinf, ninf => ninf
  | ninf, pinf => ninf
  | ninf, ninf => pinf
  | pinf, fin b => if 0 < b then pinf else if b < 0 then ninf else nan
  | fin a, pinf => if 0 < a then pinf else if a < 0 then ninf else nan
  | ninf, fin b => if 0 < b then ninf else if b < 0 then pinf else nan
  | fin a, ninf => if 0 < a then ninf else if a < 0 then pinf else nan

/-- IEEE division: finite by zero gives a signed infinity (NaN for 0/0),
finite by infinite gives 0, infinite by infinite gives NaN. -/
def div : XVal → XVal → XVal
  | nan, _ => nan
  | _, nan => nan
  | fin a, fin b =>
      if b = 0 then (if 0 < a then pinf else if a < 0 then ninf else nan)
      else fin (a / b)
  | fin _, pinf => fin 0
  | fin _, ninf => fin 0
  | pinf, fin b => if 0 ≤ b then pinf else ninf
  | ninf, fin b => if 0 ≤ b then ninf else pinf
  | pinf, pinf => nan
  | pinf, ninf => nan
  | ninf, pinf => nan
  | ninf, ninf => nan

instance : Neg XVal := ⟨neg⟩
instance : Add XVal := ⟨add⟩
instance : Sub XVal := ⟨sub⟩
instance : Mul XVal := ⟨mul⟩
instance : Div XVal := ⟨div⟩

end XVal

/-! ## Depth discretization configuration and the external collaborators -/

/-- Depth discretization configuration `disc_cfg` (spec §3 `DepthDiscConfig`):
number of bins and the depth bounds.  Only the uniform mode is modelled; the
mode choice is collaborator policy (spec §4.4). -/
structure DiscCfg where
  num_bins : ℕ
  depth_min : ℚ
  depth_max : ℚ
deriving DecidableEq, Repr

/-- Modelled from the spec: `pcdet.utils.depth_utils.bin_depths` is not among
the given sources.  Spec §4.4: given a continuous depth and the configuration
it returns a bin index in `[0, num_bins)`, monotonic non-decreasing in depth,
with out-of-range depth clamped to a boundary bin (clamping chosen here; the
spec allows clamp-or-flag).  Uniform discretization: the bin is the floor of
`(depth - depth_min) / bin_size` with `bin_size = (depth_max - depth_min) /
num_bins`, clamped into `[0, num_bins - 1]`.  Non-finite depths propagate
unchanged (spec §4.5 masks them after normalization). -/
def bin_depths (disc : DiscCfg) : XVal → XVal
  | XVal.fin q =>
      let bin_size : ℚ := (disc.depth_max - disc.depth_min) / (disc.num_bins : ℚ)
      let raw : ℤ := ⌊(q - disc.depth_min) / bin_size⌋
      XVal.fin ((max 0 (min raw ((disc.num_bins : ℤ) - 1)) : ℤ) : ℚ)
  | x => x

/-- Homogeneous extension of a 3-vector (append a constant 1). -/
def toHomog (p : Fin 3 → XVal) : Fin 4 → XVal :=
  ![p 0, p 1, p 2, XVal.fin 1]

/-- Dot product of a matrix row with a homogeneous 4-vector, summed left to
right as the tensor contraction does. -/
def dot4 (r : Fin 4 → XVal) (p : Fin 4 → XVal) : XVal :=
  r 0 * p 0 + r 1 * p 1 + r 2 * p 2 + r 3 * p 3

/-- Matrix-vector product for a 4x4 matrix. -/
def matVec4 (M : Fin 4 → Fin 4 → XVal) (p : Fin 4 → XVal) : Fin 4 → XVal :=
  fun i => dot4 (M i) p

/-- 4x4 matrix product (`C_V @ V_G`, source line 89). -/
def matMul4 (A B : Fin 4 → Fin 4 → XVal) : Fin 4 → Fin 4 → XVal :=
  fun i j => dot4 (A i) (fun k => B k j)

/-- Dehomogenization of one coordinate, modelling kornia's
`convert_points_from_homogeneous`: the point is scaled by `1/w` where `|w|`
exceeds a tiny epsilon (idealized here to `w ≠ 0`) and by `1` otherwise; a NaN
`w` compares false and also leaves the point unscaled. -/
def fromHomog (a : XVal) : XVal → XVal
  | XVal.fin z => if z = 0 then a else a / XVal.fin z
  | XVal.nan => a
  | w => a / w

/-- Models the external `kornia.transform_points`: extend the point
homogeneously, apply the 4x4 matrix, and dehomogenize by the last coordinate. -/
def transform_points (M : Fin 4 → Fin 4 → XVal) (p : Fin 3 → XVal) : Fin 3 → XVal :=
  let q := matVec4 M (toHomog p)
  fun i => fromHomog (q i.castSucc) (q 3)

/-- Modelled from the spec: `pcdet.utils.transform_utils.project_to_image` is
not among the given sources.  Spec §4.3: apply the 3x4 camera matrix to the
homogeneous camera-frame point to get `(u·w, v·w, w)`, divide by `w` to get
the pixel `(u, v)` (division by `w = 0` yields a signed infinity, propagated
intentionally), and retain `w` as the per-voxel depth. -/
def project_to_image (P : Fin 3 → Fin 4 → XVal) (p : Fin 3 → XVal) :
    (Fin 2 → XVal) × XVal :=
  let h := fun i : Fin 3 => dot4 (P i) (toHomog p)
  let w := h 2
  (fun i => h i.castSucc / w, w)

/-- One normalized coordinate, the per-axis formula of spec §4.5:
`normalized = 2 · raw / (reference_extent - 1) - 1`, evaluated with the IEEE
special-value rules so that non-finite inputs propagate. -/
def normOne (x : XVal) (extent : ℚ) : XVal :=
  XVal.fin 2 * x / XVal.fin (extent - 1) - XVal.fin 1

/-- Modelled from the spec: `pcdet.utils.grid_utils.normalize_coords` is not
among the given sources.  Spec §4.5: the reference shape is
`(num_bins, max_H, max_W)` and the per-axis formula is applied respectively to
`(depth_bin vs num_bins)`, `(u vs width)`, `(v vs height)`. -/
def normalize_coords (c : Fin 3 → XVal) (shape : Fin 3 → ℚ) : Fin 3 → XVal :=
  ![normOne (c 0) (shape 2),
    normOne (c 1) (shape 1),
    normOne (c 2) (shape 0)]

/-! ## The voxel grid (source lines 33-44) -/

/-- Models the external `kornia.utils.create_meshgrid3d` with
`normalized_coordinates=False`: the result has shape `(1, depth, height,
width, 3)` and its entry at spatial position `(d, h, w)` is the stack of
`meshgrid([zs, xs, ys])` at that position, i.e. the channel triple
`(zs[d], xs[w], ys[h]) = (d, w, h)` where `zs`, `xs`, `ys` enumerate the
depth, width and height axes. -/
def create_meshgrid3d (depth height width : ℕ) :
    Fin 1 → Fin depth → Fin height → Fin width → Fin 3 → ℚ :=
  fun _ d h w => ![(d : ℚ), (w : ℚ), (h : ℚ)]

/-- The dense voxel grid of the generator (source lines 36-44): the mesh grid
is created with `depth = X`, `height = Z`, `width = Y`, its spatial axes are
permuted `XZY → XYZ` (`permute(0, 1, 3, 2, 4)`), and only then is the `0.5`
voxel-center offset added. -/
def build_voxel_grid (X Y Z : ℕ) : Fin 1 → Fin X → Fin Y → Fin Z → Fin 3 → ℚ :=
  fun b x y z c => create_meshgrid3d X Z Y b x z y c + 1/2

/-! ## The generator (source lines 11-69) -/

/-- The state a `FrustumGridGenerator` holds after `__init__` (source lines
19-46): the grid extents, the point-cloud range split into per-axis minima and
maxima, the derived voxel size, the voxel-center grid, the cached
grid-to-LiDAR matrix, the depth discretization configuration, and the
out-of-bounds sentinel. -/
structure FrustumGridGenerator where
  X : ℕ
  Y : ℕ
  Z : ℕ
  pc_min : Fin 3 → ℚ
  pc_max : Fin 3 → ℚ
  voxel_size : Fin 3 → XVal
  grid_to_lidar : Fin 4 → Fin 4 → XVal
  voxel_grid : Fin 1 → Fin X → Fin Y → Fin Z → Fin 3 → ℚ
  disc : DiscCfg
  out_of_bounds_val : ℚ

namespace FrustumGridGenerator

/-- The grid-to-LiDAR unprojection matrix (source lines 48-69): a diagonal of
the voxel sizes with the point-cloud minima as the translation column. -/
def grid_to_lidar_unproject (pc_min : Fin 3 → ℚ) (voxel_size : Fin 3 → XVal) :
    Fin 4 → Fin 4 → XVal :=
  ![![voxel_size 0, XVal.fin 0, XVal.fin 0, XVal.fin (pc_min 0)],
    ![XVal.fin 0, voxel_size 1, XVal.fin 0, XVal.fin (pc_min 1)],
    ![XVal.fin 0, XVal.fin 0, voxel_size 2, XVal.fin (pc_min 2)],
    ![XVal.fin 0, XVal.fin 0, XVal.fin 0, XVal.fin 1]]

/-- The successful branch of `__init__` (source lines 19-46): `pc_range` is
split as `[min | max]` (line 27-29), the voxel size is the elementwise
quotient by `grid_size` (line 30; an IEEE division, so a zero grid size yields
a non-finite voxel size as in the source, with no error), the voxel grid is
built (lines 33-44), the grid-to-LiDAR matrix is cached (line 45), and the
out-of-bounds sentinel is fixed at `-2` (line 23).  No validation of the
configuration is performed anywhere in `__init__`. -/
def initCore (grid_size : Fin 3 → ℤ) (pc_range : Fin 6 → ℚ) (disc : DiscCfg) :
    FrustumGridGenerator :=
  ⟨(grid_size 0).toNat, (grid_size 1).toNat, (grid_size 2).toNat,
   fun i => pc_range (Fin.castAdd 3 i),
   fun i => pc_range (Fin.natAdd 3 i),
   fun i => XVal.div
     (XVal.fin (pc_range (Fin.natAdd 3 i) - pc_range (Fin.castAdd 3 i)))
     (XVal.fin ((grid_size i : ℚ))),
   grid_to_lidar_unproject
     (fun i => pc_range (Fin.castAdd 3 i))
     (fun i => XVal.div
       (XVal.fin (pc_range (Fin.natAdd 3 i) - pc_range (Fin.castAdd 3 i)))
       (XVal.fin ((grid_size i : ℚ)))),
   build_voxel_grid (grid_size 0).toNat (grid_size 1).toNat (grid_size 2).toNat,
   disc, -2⟩

/-- `__init__` as a fallible constructor: the only configuration `__init__`
rejects is a negative grid extent, because `torch.linspace` inside
`create_meshgrid3d` raises on a negative number of steps.  A zero extent and
any `pc_range` (including `max ≤ min`) construct successfully. -/
def init (grid_size : Fin 3 → ℤ) (pc_range : Fin 6 → ℚ) (disc : DiscCfg) :
    Option FrustumGridGenerator :=
  if _h : ∀ i, 0 ≤ grid_size i then some (initCore grid_size pc_range disc)
  else none

end FrustumGridGenerator

/-- The invalid-value masking of `forward` (source lines 136-138): one scalar
element of the normalized grid is kept if it is finite and replaced by the
out-of-bounds sentinel otherwise. -/
def maskVal (out_of_bounds_val : ℚ) (n : XVal) : XVal :=
  if n.isFinite then n else XVal.fin out_of_bounds_val

/-- Elementwise maximum over a nonempty batch, modelling
`torch.max(image_shape, dim=0)` on one component (source line 131). -/
def vmax : {n : ℕ} → (Fin (n + 1) → ℚ) → ℚ
  | 0, f => f 0
  | _ + 1, f => max (f 0) (vmax (fun i => f i.succ))

/-- The reference shape the frustum grid is normalized against (source lines
131-133): `num_bins` prepended to the batchwise maximum image height and
width.  An `image_shape` row is `(H, W)`. -/
def frustum_shape (disc : DiscCfg) {m : ℕ} (S : Fin (m + 1) → ℚ × ℚ) :
    Fin 3 → ℚ :=
  ![(disc.num_bins : ℚ), vmax (fun i => (S i).1), vmax (fun i => (S i).2)]

/-- The camera-frame stage of `transform_grid` (source lines 83-97): per
camera `b`, the combined matrix `trans = lidar_to_cam[b] @ grid_to_lidar` is
applied to the voxel centers of the shared batch-1 grid, which
`repeat_interleave` replicates unchanged across the `B` cameras. -/
def camera_grid {X Y Z B : ℕ}
    (grid_to_lidar : Fin 4 → Fin 4 → XVal)
    (voxel_grid : Fin 1 → Fin X → Fin Y → Fin Z → Fin 3 → ℚ)
    (lidar_to_cam : Fin B → Fin 4 → Fin 4 → ℚ) :
    Fin B → Fin X → Fin Y → Fin Z → Fin 3 → XVal :=
  fun b x y z =>
    transform_points
      (matMul4 (fun i j => XVal.fin (lidar_to_cam b i j)) grid_to_lidar)
      (fun c => XVal.fin (voxel_grid 0 x y z c))

/-- The body of `transform_grid` (source lines 71-112) once the camera batch
dimensions agree: project the camera-frame points to image coordinates plus
depth (line 102), discretize the depth (line 106), and stack `(u, v,
depth_bin)` (lines 109-111).  The output batch dimension is the camera batch,
followed by `(X, Y, Z)` in the voxel grid's order. -/
def transform_grid_core (disc : DiscCfg) {X Y Z B : ℕ}
    (voxel_grid : Fin 1 → Fin X → Fin Y → Fin Z → Fin 3 → ℚ)
    (grid_to_lidar : Fin 4 → Fin 4 → XVal)
    (lidar_to_cam : Fin B → Fin 4 → Fin 4 → ℚ)
    (cam_to_img : Fin B → Fin 3 → Fin 4 → ℚ) :
    Fin B → Fin X → Fin Y → Fin Z → Fin 3 → XVal :=
  fun b x y z =>
    let pr := project_to_image (fun i j => XVal.fin (cam_to_img b i j))
      (camera_grid grid_to_lidar voxel_grid lidar_to_cam b x y z)
    ![pr.1 0, pr.1 1, bin_depths disc pr.2]

namespace FrustumGridGenerator

/-- `transform_grid` (source lines 71-112) as a fallible call: the only shape
failure is `cam_to_img.reshape(B, 1, 1, 3, 4)` (line 100), which raises
exactly when the camera batch of `cam_to_img` differs from `B =
lidar_to_cam.shape[0]` (line 83).  The batched product `C_V @ V_G` and the
`repeat_interleave` replication never fail. -/
def transform_grid (disc : DiscCfg) {X Y Z bL bC : ℕ}
    (voxel_grid : Fin 1 → Fin X → Fin Y → Fin Z → Fin 3 → ℚ)
    (grid_to_lidar : Fin 4 → Fin 4 → XVal)
    (lidar_to_cam : Fin bL → Fin 4 → Fin 4 → ℚ)
    (cam_to_img : Fin bC → Fin 3 → Fin 4 → ℚ) :
    Option (Fin bL → Fin X → Fin Y → Fin Z → Fin 3 → XVal) :=
  if h : bC = bL then
    some (transform_grid_core disc voxel_grid grid_to_lidar lidar_to_cam
      (fun b => cam_to_img (Fin.cast h.symm b)))
  else none

/-- The successful path of `forward` (source lines 114-140) for equal camera
batches and a nonempty `image_shape` batch: the frustum grid from
`transform_grid`, normalized against `frustum_shape` (lines 130-134), with
every scalar element that is not finite replaced — independently per element —
by the out-of-bounds sentinel (lines 136-138). -/
def forward_core (gen : FrustumGridGenerator) {bL m : ℕ}
    (lidar_to_cam : Fin bL → Fin 4 → Fin 4 → ℚ)
    (cam_to_img : Fin bL → Fin 3 → Fin 4 → ℚ)
    (image_shape : Fin (m + 1) → ℚ × ℚ) :
    Fin bL → Fin gen.X → Fin gen.Y → Fin gen.Z → Fin 3 → XVal :=
  fun b x y z c =>
    maskVal gen.out_of_bounds_val
      (normalize_coords
        (transform_grid_core gen.disc gen.voxel_grid gen.grid_to_lidar
          lidar_to_cam cam_to_img b x y z)
        (frustum_shape gen.disc image_shape) c)

/-- `forward` (source lines 114-140).  The two `none` branches model the two
run-time errors `forward` can raise: the `reshape` inside `transform_grid`
when the `cam_to_img` batch differs from the `lidar_to_cam` batch (line 100),
and `torch.max` over an empty `image_shape` batch (line 131).  The batch
dimension of a nonempty `image_shape` is never compared with the others — it
is only max-reduced. -/
def forward (gen : FrustumGridGenerator) {bL bC bI : ℕ}
    (lidar_to_cam : Fin bL → Fin 4 → Fin 4 → ℚ)
    (cam_to_img : Fin bC → Fin 3 → Fin 4 → ℚ)
    (image_shape : Fin bI → ℚ × ℚ) :
    Option (Fin bL → Fin gen.X → Fin gen.Y → Fin gen.Z → Fin 3 → XVal) :=
  match transform_grid gen.disc gen.voxel_grid gen.grid_to_lidar
      lidar_to_cam cam_to_img with
  | none => none
  | some fg =>
    match bI, image_shape with
    | 0, _ => none
    | _ + 1, S =>
      some (fun b x y z c =>
        maskVal gen.out_of_bounds_val
          (normalize_coords (fg b x y z) (frustum_shape gen.disc S) c))

end FrustumGridGenerator

/-! ## Concrete configurations used by the scenarios below -/

/-- Identity LiDAR-to-camera extrinsic for a single-camera batch. -/
def idExtrinsic : Fin 1 → Fin 4 → Fin 4 → ℚ :=
  fun _ i j => if i = j then 1 else 0

/-- The orthographic-style camera matrix
`[[1,0,0,0],[0,1,0,0],[0,0,1,0]]` for a single-camera batch. -/
def orthoProj : Fin 1 → Fin 3 → Fin 4 → ℚ :=
  fun _ i j => if (i : ℕ) = (j : ℕ) then 1 else 0

/-- A single `2 × 2` image shape `(H, W) = (2, 2)`. -/
def shape22 : Fin 1 → ℚ × ℚ :=
  fun _ => (2, 2)

/-- The generator of the end-to-end scenario (spec §8): `grid_size = (2,2,2)`,
`pc_range = [0,0,0,2,2,2]`, `num_bins = 2` with uniform depth bounds `[0, 2)`
so that a depth below `1` falls in bin `0`. -/
def gen9 : FrustumGridGenerator :=
  FrustumGridGenerator.initCore ![2, 2, 2] ![0, 0, 0, 2, 2, 2] ⟨2, 0, 2⟩

/-- The generator of the mixed-triple scenario: a single voxel whose center
sits at LiDAR height `z = 0`, so an identity extrinsic and the orthographic
camera matrix give it camera depth `w = 0`. -/
def genC1 : FrustumGridGenerator :=
  FrustumGridGenerator.initCore ![1, 1, 1] ![0, 0, -(1/2), 1, 1, 1/2] ⟨2, 0, 2⟩

/-- A generator whose voxel centers are laterally far from the camera axis,
producing finite projected coordinates far outside the image. -/
def genC10 : FrustumGridGenerator :=
  FrustumGridGenerator.initCore ![2, 2, 2] ![0, 10, 0, 2, 12, 2] ⟨2, 0, 2⟩

/-- A two-image batch of `(H, W)` shapes `(2, 2)` and `(4, 4)`. -/
def shapes24 : Fin 2 → ℚ × ℚ :=
  ![(2, 2), (4, 4)]

/-- A two-image batch of `(H, W)` shapes `(1, 1)` and `(4, 4)`: the smaller
camera is one pixel wide, so its maximum pixel index is `0`. -/
def shapes14 : Fin 2 → ℚ × ℚ :=
  ![(1, 1), (4, 4)]

/-- The coherent-invalidity property claimed for one output triple: either
all three components are finite and lie in `[-1, 1]`, or all three equal the
sentinel `-2`. -/
def coherentTriple (t : Fin 3 → XVal) : Prop :=
  (∀ c, (t c).isFinite = true ∧ inUnit (t c) = true) ∨ (∀ c, t c = XVal.fin (-2))
where
  /-- Membership of a value in the normalized range `[-1, 1]`. -/
  inUnit : XVal → Bool
    | XVal.fin q => decide (-1 ≤ q ∧ q ≤ 1)
    | _ => false

/-! ## Helper lemmas -/

@[simp] theorem XVal.fin_add_fin (a b : ℚ) : fin a + fin b = fin (a + b) := rfl

@[simp] theorem XVal.fin_mul_fin (a b : ℚ) : fin a * fin b = fin (a * b) := rfl

@[simp] theorem XVal.neg_fin (a : ℚ) : -(fin a) = fin (-a) := rfl

@[simp] theorem XVal.fin_sub_fin (a b : ℚ) : fin a - fin b = fin (a - b) := by
  show add (fin a) (neg (fin b)) = fin (a - b)
  simp [add, neg, sub_eq_add_neg]

@[simp] theorem XVal.fin_div_fin (a b : ℚ) (hb : b ≠ 0) :
    fin a / fin b = fin (a / b) := by
  show div (fin a) (fin b) = fin (a / b)
  simp [div, hb]

@[simp] theorem XVal.isFinite_fin (a : ℚ) : (fin a).isFinite = true := rfl

/-- When the camera batches agree and the image batch is nonempty, `forward`
succeeds and returns exactly `forward_core`. -/
theorem FrustumGridGenerator.forward_eq_core (gen : FrustumGridGenerator)
    {bL m : ℕ}
    (lidar_to_cam : Fin bL → Fin 4 → Fin 4 → ℚ)
    (cam_to_img : Fin bL → Fin 3 → Fin 4 → ℚ)
    (image_shape : Fin (m + 1) → ℚ × ℚ) :
    forward gen lidar_to_cam cam_to_img image_shape
      = some (forward_core gen lidar_to_cam cam_to_img image_shape) := by
  unfold forward transform_grid
  rw [dif_pos rfl]
  rfl

/-! ## Claims -/

/-- Claim C2, counterexample: the configuration `grid_size = (1,1,1)`,
`pc_range = [0,0,0,0,0,0]` has `max ≤ min` on every axis, yet construction
succeeds and produces a generator whose voxel size is zero on every axis —
`__init__` performs no validation (source lines 11-46). -/
theorem c2_counterexample :
    ((FrustumGridGenerator.init ![1, 1, 1] ![0, 0, 0, 0, 0, 0] ⟨2, 0, 2⟩).map
        (fun g => (g.voxel_size 0, g.voxel_size 1, g.voxel_size 2)))
      = some (XVal.fin 0, XVal.fin 0, XVal.fin 0) := by
  decide

/-- Claim C2 (corrected): construction does not validate `grid_size`
positivity or `pc_range` ordering; it fails exactly when some `grid_size`
component is negative (the mesh-creation `linspace` rejects a negative step
count), and otherwise — including zero extents and `max ≤ min` ranges —
returns a generator, whose voxel size may then be zero or negative. -/
theorem c2_theorem (gs : Fin 3 → ℤ) (pr : Fin 6 → ℚ) (dc : DiscCfg) :
    FrustumGridGenerator.init gs pr dc = none ↔ ∃ i, gs i < 0 := by
  constructor
  · intro h
    by_contra hne
    push_neg at hne
    rw [FrustumGridGenerator.init, dif_pos (fun i => hne i)] at h
    exact Option.some_ne_none _ h
  · rintro ⟨i, hi⟩
    have hno : ¬ ∀ j, 0 ≤ gs j := fun hall => absurd (hall i) (not_le.mpr hi)
    rw [FrustumGridGenerator.init, dif_neg hno]

/-- Claim C3, counterexample: with `lidar_to_cam` and `cam_to_img` of batch 1
but `image_shape` of batch 2 the three leading batch dimensions are not all
equal, yet `forward` succeeds and returns an output grid: the `image_shape`
batch is only max-reduced (source line 131), never compared. -/
theorem c3_counterexample :
    (FrustumGridGenerator.forward gen9 idExtrinsic orthoProj shapes24).isSome
      = true := by
  decide

/-- Claim C3 (corrected): `forward` fails exactly when the `cam_to_img` batch
differs from the `lidar_to_cam` batch (the `reshape` at source line 100) or
the `image_shape` batch is empty (`torch.max` over an empty dimension, line
131); a nonempty `image_shape` whose batch dimension disagrees with the other
two is silently max-reduced and `forward` returns an output grid. -/
theorem c3_theorem (gen : FrustumGridGenerator) {bL bC bI : ℕ}
    (lidar_to_cam : Fin bL → Fin 4 → Fin 4 → ℚ)
    (cam_to_img : Fin bC → Fin 3 → Fin 4 → ℚ)
    (image_shape : Fin bI → ℚ × ℚ) :
    FrustumGridGenerator.forward gen lidar_to_cam cam_to_img image_shape = none
      ↔ (bC ≠ bL ∨ bI = 0) := by
  unfold FrustumGridGenerator.forward FrustumGridGenerator.transform_grid
  rcases eq_or_ne bC bL with h | h
  · subst h
    rw [dif_pos rfl]
    cases bI with
    | zero => simp
    | succ m => simp
  · rw [dif_neg h]
    simp [h]

/-- Claim C8 (confirmed): the pipeline is a deterministic pure function of the
construction-time configuration and the per-call inputs: equal configurations
yield equal generators, and on any generator equal inputs yield equal
`forward` results. -/
theorem c8_theorem :
    (∀ (gs : Fin 3 → ℤ) (pr : Fin 6 → ℚ) (dc : DiscCfg)
        (g1 g2 : FrustumGridGenerator),
        FrustumGridGenerator.init gs pr dc = some g1 →
        FrustumGridGenerator.init gs pr dc = some g2 → g1 = g2)
    ∧ ∀ (gen : FrustumGridGenerator) {bL bC bI : ℕ}
        (La Lb : Fin bL → Fin 4 → Fin 4 → ℚ)
        (Ca Cb : Fin bC → Fin 3 → Fin 4 → ℚ)
        (Sa Sb : Fin bI → ℚ × ℚ),
        La = Lb → Ca = Cb → Sa = Sb →
        FrustumGridGenerator.forward gen La Ca Sa
          = FrustumGridGenerator.forward gen Lb Cb Sb := by
  constructor
  · intro gs pr dc g1 g2 h1 h2
    rw [h1] at h2
    exact Option.some.inj h2
  · intro gen bL bC bI La Lb Ca Cb Sa Sb hL hC hS
    rw [hL, hC, hS]

/-- Witness for C8: two calls with (syntactically different but) equal inputs
on the scenario generator return the same grid, and the two constructions
from the scenario configuration agree. -/
theorem c8_witness :
    gen9 = gen9
    ∧ FrustumGridGenerator.forward gen9 idExtrinsic orthoProj shape22
      = FrustumGridGenerator.forward gen9 (fun b i j => idExtrinsic b i j)
          orthoProj shape22 :=
  ⟨c8_theorem.1 ![2, 2, 2] ![0, 0, 0, 2, 2, 2] ⟨2, 0, 2⟩ gen9 gen9
      (dif_pos (by decide)) (dif_pos (by decide)),
   c8_theorem.2 gen9 idExtrinsic (fun b i j => idExtrinsic b i j)
      orthoProj orthoProj shape22 shape22 rfl rfl rfl⟩

/-- Claim C9, counterexample: in the end-to-end scenario the voxel with index
`(0,0,0)` does not project to image coordinate `(0.5, 0.5)`: its camera-frame
point is `(0.5, 0.5, 0.5)`, so the homogeneous image coordinates are
`(0.5, 0.5)` with `w = 0.5`, and the projective divide (spec §4.3) yields the
pixel coordinate `(1, 1)`. -/
theorem c9_counterexample :
    (project_to_image (fun i j => XVal.fin (orthoProj 0 i j))
        (camera_grid gen9.grid_to_lidar gen9.voxel_grid idExtrinsic 0
          ⟨0, by decide⟩ ⟨0, by decide⟩ ⟨0, by decide⟩)).1
      = ![XVal.fin 1, XVal.fin 1]
    ∧ (![XVal.fin 1, XVal.fin 1] : Fin 2 → XVal)
      ≠ ![XVal.fin (1/2), XVal.fin (1/2)] := by
  constructor
  · decide
  · decide

/-- Claim C9 (corrected): in the scenario `grid_size = (2,2,2)`,
`pc_range = [0,0,0,2,2,2]` (voxel size `(1,1,1)`), identity extrinsic,
`cam_to_img = [[1,0,0,0],[0,1,0,0],[0,0,1,0]]`, `image_shape = [2,2]`,
`num_bins = 2` (uniform bins over `[0,2)`, so depth below `1` is bin `0`):
the voxel with index `(0,0,0)` has world center `(0.5, 0.5, 0.5)`, its
homogeneous image coordinates are `(0.5, 0.5, 0.5)`, the projective divide by
`w = 0.5` gives pixel `(1, 1)` with depth `0.5`, the depth falls in bin `0`,
and normalization is against the reference shape `(2, 2, 2)`, producing the
output triple `(1, 1, -1)`. -/
theorem c9_theorem :
    FrustumGridGenerator.init ![2, 2, 2] ![0, 0, 0, 2, 2, 2] ⟨2, 0, 2⟩
      = some gen9
    ∧ gen9.voxel_size = ![XVal.fin 1, XVal.fin 1, XVal.fin 1]
    ∧ (fun c => gen9.voxel_grid 0 ⟨0, by decide⟩ ⟨0, by decide⟩ ⟨0, by decide⟩ c)
      = ![1/2, 1/2, 1/2]
    ∧ matVec4 gen9.grid_to_lidar
        ![XVal.fin (1/2), XVal.fin (1/2), XVal.fin (1/2), XVal.fin 1]
      = ![XVal.fin (1/2), XVal.fin (1/2), XVal.fin (1/2), XVal.fin 1]
    ∧ (fun c => camera_grid gen9.grid_to_lidar gen9.voxel_grid idExtrinsic 0
          ⟨0, by decide⟩ ⟨0, by decide⟩ ⟨0, by decide⟩ c)
      = ![XVal.fin (1/2), XVal.fin (1/2), XVal.fin (1/2)]
    ∧ (project_to_image (fun i j => XVal.fin (orthoProj 0 i j))
        (camera_grid gen9.grid_to_lidar gen9.voxel_grid idExtrinsic 0
          ⟨0, by decide⟩ ⟨0, by decide⟩ ⟨0, by decide⟩)).1
      = ![XVal.fin 1, XVal.fin 1]
    ∧ (project_to_image (fun i j => XVal.fin (orthoProj 0 i j))
        (camera_grid gen9.grid_to_lidar gen9.voxel_grid idExtrinsic 0
          ⟨0, by decide⟩ ⟨0, by decide⟩ ⟨0, by decide⟩)).2
      = XVal.fin (1/2)
    ∧ bin_depths gen9.disc (XVal.fin (1/2)) = XVal.fin 0
    ∧ frustum_shape gen9.disc shape22 = ![2, 2, 2]
    ∧ (fun c => FrustumGridGenerator.forward_core gen9 idExtrinsic orthoProj
          shape22 0 ⟨0, by decide⟩ ⟨0, by decide⟩ ⟨0, by decide⟩ c)
      = ![XVal.fin 1, XVal.fin 1, XVal.fin (-1)]
    ∧ FrustumGridGenerator.forward gen9 idExtrinsic orthoProj shape22
      = some (FrustumGridGenerator.forward_core gen9 idExtrinsic orthoProj
          shape22) := by
  refine ⟨dif_pos (by decide), by decide, by decide, by decide, by decide,
    by decide, by decide, by decide, by decide, by decide,
    FrustumGridGenerator.forward_eq_core gen9 idExtrinsic orthoProj shape22⟩

/-- Claim C1, counterexample: for the generator `genC1` (single voxel whose
camera depth is `w = 0`) with identity extrinsic and the orthographic camera
matrix, the output triple at `(0,0,0,0)` is `(-2, -2, -1)`: the `u` and `v`
coordinates become infinite through the division by `w = 0` and are replaced
by the sentinel, but the depth-bin coordinate stays finite (`-1`, inside
`[-1,1]`) because the masking at source lines 137-138 is per scalar element —
the triple mixes sentinel and non-sentinel components. -/
theorem c1_counterexample :
    FrustumGridGenerator.forward_core genC1 idExtrinsic orthoProj shape22 0
        ⟨0, by decide⟩ ⟨0, by decide⟩ ⟨0, by decide⟩ 0 = XVal.fin (-2)
    ∧ FrustumGridGenerator.forward_core genC1 idExtrinsic orthoProj shape22 0
        ⟨0, by decide⟩ ⟨0, by decide⟩ ⟨0, by decide⟩ 1 = XVal.fin (-2)
    ∧ FrustumGridGenerator.forward_core genC1 idExtrinsic orthoProj shape22 0
        ⟨0, by decide⟩ ⟨0, by decide⟩ ⟨0, by decide⟩ 2 = XVal.fin (-1)
    ∧ ¬ coherentTriple ![XVal.fin (-2), XVal.fin (-2), XVal.fin (-1)]
    ∧ FrustumGridGenerator.forward genC1 idExtrinsic orthoProj shape22
      = some (FrustumGridGenerator.forward_core genC1 idExtrinsic orthoProj
          shape22) := by
  refine ⟨by decide, by decide, by decide, ?_,
    FrustumGridGenerator.forward_eq_core genC1 idExtrinsic orthoProj shape22⟩
  rintro (h | h)
  · have h0 := (h 0).2
    revert h0
    decide
  · have h2 := h 2
    revert h2
    decide

/-- Claim C1 (corrected): the sentinel is `-2` as constructed, but the
replacement of non-finite values happens independently per scalar element of
the normalized grid: each output element either is the finite normalized
value (which may lie outside `[-1,1]`) or, exactly when that value is
non-finite, the sentinel — a triple may therefore mix sentinel and
non-sentinel components. -/
theorem c1_theorem :
    (∀ (gs : Fin 3 → ℤ) (pr : Fin 6 → ℚ) (dc : DiscCfg),
        (FrustumGridGenerator.initCore gs pr dc).out_of_bounds_val = -2)
    ∧ ∀ (gen : FrustumGridGenerator) {bL m : ℕ}
        (lidar_to_cam : Fin bL → Fin 4 → Fin 4 → ℚ)
        (cam_to_img : Fin bL → Fin 3 → Fin 4 → ℚ)
        (image_shape : Fin (m + 1) → ℚ × ℚ)
        (b : Fin bL) (x : Fin gen.X) (y : Fin gen.Y) (z : Fin gen.Z)
        (c : Fin 3),
        ((normalize_coords
              (transform_grid_core gen.disc gen.voxel_grid gen.grid_to_lidar
                lidar_to_cam cam_to_img b x y z)
              (frustum_shape gen.disc image_shape) c).isFinite = true
          ∧ FrustumGridGenerator.forward_core gen lidar_to_cam cam_to_img
              image_shape b x y z c
            = normalize_coords
                (transform_grid_core gen.disc gen.voxel_grid gen.grid_to_lidar
                  lidar_to_cam cam_to_img b x y z)
                (frustum_shape gen.disc image_shape) c)
        ∨ ((normalize_coords
              (transform_grid_core gen.disc gen.voxel_grid gen.grid_to_lidar
                lidar_to_cam cam_to_img b x y z)
              (frustum_shape gen.disc image_shape) c).isFinite = false
          ∧ FrustumGridGenerator.forward_core gen lidar_to_cam cam_to_img
              image_shape b x y z c
            = XVal.fin gen.out_of_bounds_val) := by
  refine ⟨fun gs pr dc => rfl, ?_⟩
  intro gen bL m lidar_to_cam cam_to_img image_shape b x y z c
  cases hf : (normalize_coords
      (transform_grid_core gen.disc gen.voxel_grid gen.grid_to_lidar
        lidar_to_cam cam_to_img b x y z)
      (frustum_shape gen.disc image_shape) c).isFinite with
  | true =>
    left
    refine ⟨rfl, ?_⟩
    show maskVal _ _ = _
    unfold maskVal
    rw [hf]
    simp
  | false =>
    right
    refine ⟨rfl, ?_⟩
    show maskVal _ _ = _
    unfold maskVal
    rw [hf]
    simp

/-- Claim C10 (confirmed): the sentinel replacement in `forward` targets
exactly the non-finite elements of the normalized grid — every normalized
coordinate that is finite is returned unchanged, even when it lies outside
`[-1, 1]`. -/
theorem c10_theorem (gen : FrustumGridGenerator) {bL m : ℕ}
    (lidar_to_cam : Fin bL → Fin 4 → Fin 4 → ℚ)
    (cam_to_img : Fin bL → Fin 3 → Fin 4 → ℚ)
    (image_shape : Fin (m + 1) → ℚ × ℚ)
    (b : Fin bL) (x : Fin gen.X) (y : Fin gen.Y) (z : Fin gen.Z) (c : Fin 3)
    (h : (normalize_coords
        (transform_grid_core gen.disc gen.voxel_grid gen.grid_to_lidar
          lidar_to_cam cam_to_img b x y z)
        (frustum_shape gen.disc image_shape) c).isFinite = true) :
    FrustumGridGenerator.forward_core gen lidar_to_cam cam_to_img image_shape
        b x y z c
      = normalize_coords
          (transform_grid_core gen.disc gen.voxel_grid gen.grid_to_lidar
            lidar_to_cam cam_to_img b x y z)
          (frustum_shape gen.disc image_shape) c := by
  show maskVal _ _ = _
  rw [maskVal, if_pos h]

/-- Witness for C10: a voxel of `genC10` projects to the finite pixel row
coordinate `v = 21`, which normalizes to `41` — far outside `[-1, 1]` — and
is returned unchanged rather than being replaced by the sentinel. -/
theorem c10_witness :
    FrustumGridGenerator.forward_core genC10 idExtrinsic orthoProj shape22 0
        ⟨0, by decide⟩ ⟨0, by decide⟩ ⟨0, by decide⟩ 1 = XVal.fin 41
    ∧ ¬ ((41 : ℚ) ≤ 1) := by
  constructor
  · have h := c10_theorem genC10 idExtrinsic orthoProj shape22 0
      ⟨0, by decide⟩ ⟨0, by decide⟩ ⟨0, by decide⟩ 1 (by decide)
    rw [h]
    decide
  · decide

/-- Entrywise action of the grid-to-LiDAR unprojection matrix on a
homogeneous 4-vector, by definitional unfolding. -/
theorem matVec4_unproject_apply (pm : Fin 3 → ℚ) (vs : Fin 3 → XVal)
    (p : Fin 4 → XVal) :
    (matVec4 (FrustumGridGenerator.grid_to_lidar_unproject pm vs) p 0
      = vs 0 * p 0 + XVal.fin 0 * p 1 + XVal.fin 0 * p 2 + XVal.fin (pm 0) * p 3)
    ∧ (matVec4 (FrustumGridGenerator.grid_to_lidar_unproject pm vs) p 1
      = XVal.fin 0 * p 0 + vs 1 * p 1 + XVal.fin 0 * p 2 + XVal.fin (pm 1) * p 3)
    ∧ (matVec4 (FrustumGridGenerator.grid_to_lidar_unproject pm vs) p 2
      = XVal.fin 0 * p 0 + XVal.fin 0 * p 1 + vs 2 * p 2 + XVal.fin (pm 2) * p 3)
    ∧ (matVec4 (FrustumGridGenerator.grid_to_lidar_unproject pm vs) p 3
      = XVal.fin 0 * p 0 + XVal.fin 0 * p 1 + XVal.fin 0 * p 2 + XVal.fin 1 * p 3) :=
  ⟨rfl, rfl, rfl, rfl⟩

/-- The cached grid-to-LiDAR matrix of a constructed generator is the
unprojection matrix of its minima and voxel sizes (source line 45). -/
theorem initCore_grid_to_lidar (gs : Fin 3 → ℤ) (pr : Fin 6 → ℚ) (dc : DiscCfg) :
    (FrustumGridGenerator.initCore gs pr dc).grid_to_lidar
      = FrustumGridGenerator.grid_to_lidar_unproject
          (fun i => pr (Fin.castAdd 3 i))
          (fun i => XVal.div
            (XVal.fin (pr (Fin.natAdd 3 i) - pr (Fin.castAdd 3 i)))
            (XVal.fin ((gs i : ℚ)))) := rfl

/-- Claim C4 (confirmed): for every valid configuration (positive grid
extents) construction succeeds, the voxel size is
`(pc_max_i - pc_min_i) / grid_size_i` on every axis, the cached grid-to-LiDAR
matrix maps the homogeneous index coordinate `(gx, gy, gz, 1)` to
`(gx·vx + x_min, gy·vy + y_min, gz·vz + z_min, 1)`, and in particular applied
to `(0.5, 0.5, 0.5, 1)` it yields
`(x_min + 0.5·vx, y_min + 0.5·vy, z_min + 0.5·vz, 1)`. -/
theorem c4_theorem (gs : Fin 3 → ℤ) (pr : Fin 6 → ℚ) (dc : DiscCfg)
    (hpos : ∀ i, 0 < gs i) :
    FrustumGridGenerator.init gs pr dc
      = some (FrustumGridGenerator.initCore gs pr dc)
    ∧ (∀ i, (FrustumGridGenerator.initCore gs pr dc).voxel_size i
        = XVal.fin (((FrustumGridGenerator.initCore gs pr dc).pc_max i
            - (FrustumGridGenerator.initCore gs pr dc).pc_min i) / ((gs i : ℚ))))
    ∧ (∀ gx gy gz : ℚ,
        (matVec4 (FrustumGridGenerator.initCore gs pr dc).grid_to_lidar
            ![XVal.fin gx, XVal.fin gy, XVal.fin gz, XVal.fin 1] 0
          = XVal.fin (gx * (((FrustumGridGenerator.initCore gs pr dc).pc_max 0
              - (FrustumGridGenerator.initCore gs pr dc).pc_min 0) / ((gs 0 : ℚ)))
              + (FrustumGridGenerator.initCore gs pr dc).pc_min 0))
        ∧ (matVec4 (FrustumGridGenerator.initCore gs pr dc).grid_to_lidar
            ![XVal.fin gx, XVal.fin gy, XVal.fin gz, XVal.fin 1] 1
          = XVal.fin (gy * (((FrustumGridGenerator.initCore gs pr dc).pc_max 1
              - (FrustumGridGenerator.initCore gs pr dc).pc_min 1) / ((gs 1 : ℚ)))
              + (FrustumGridGenerator.initCore gs pr dc).pc_min 1))
        ∧ (matVec4 (FrustumGridGenerator.initCore gs pr dc).grid_to_lidar
            ![XVal.fin gx, XVal.fin gy, XVal.fin gz, XVal.fin 1] 2
          = XVal.fin (gz * (((FrustumGridGenerator.initCore gs pr dc).pc_max 2
              - (FrustumGridGenerator.initCore gs pr dc).pc_min 2) / ((gs 2 : ℚ)))
              + (FrustumGridGenerator.initCore gs pr dc).pc_min 2))
        ∧ (matVec4 (FrustumGridGenerator.initCore gs pr dc).grid_to_lidar
            ![XVal.fin gx, XVal.fin gy, XVal.fin gz, XVal.fin 1] 3
          = XVal.fin 1))
    ∧ (matVec4 (FrustumGridGenerator.initCore gs pr dc).grid_to_lidar
          ![XVal.fin (1/2), XVal.fin (1/2), XVal.fin (1/2), XVal.fin 1] 0
        = XVal.fin ((FrustumGridGenerator.initCore gs pr dc).pc_min 0
            + 1/2 * (((FrustumGridGenerator.initCore gs pr dc).pc_max 0
              - (FrustumGridGenerator.initCore gs pr dc).pc_min 0)
              / ((gs 0 : ℚ)))))
    ∧ (matVec4 (FrustumGridGenerator.initCore gs pr dc).grid_to_lidar
          ![XVal.fin (1/2), XVal.fin (1/2), XVal.fin (1/2), XVal.fin 1] 1
        = XVal.fin ((FrustumGridGenerator.initCore gs pr dc).pc_min 1
            + 1/2 * (((FrustumGridGenerator.initCore gs pr dc).pc_max 1
              - (FrustumGridGenerator.initCore gs pr dc).pc_min 1)
              / ((gs 1 : ℚ)))))
    ∧ (matVec4 (FrustumGridGenerator.initCore gs pr dc).grid_to_lidar
          ![XVal.fin (1/2), XVal.fin (1/2), XVal.fin (1/2), XVal.fin 1] 2
        = XVal.fin ((FrustumGridGenerator.initCore gs pr dc).pc_min 2
            + 1/2 * (((FrustumGridGenerator.initCore gs pr dc).pc_max 2
              - (FrustumGridGenerator.initCore gs pr dc).pc_min 2)
              / ((gs 2 : ℚ))))) := by
  have hne : ∀ i : Fin 3, ((gs i : ℚ)) ≠ 0 := fun i =>
    Int.cast_ne_zero.mpr (hpos i).ne'
  have hmat : ∀ gx gy gz : ℚ,
      (matVec4 (FrustumGridGenerator.initCore gs pr dc).grid_to_lidar
          ![XVal.fin gx, XVal.fin gy, XVal.fin gz, XVal.fin 1] 0
        = XVal.fin (gx * (((FrustumGridGenerator.initCore gs pr dc).pc_max 0
            - (FrustumGridGenerator.initCore gs pr dc).pc_min 0) / ((gs 0 : ℚ)))
            + (FrustumGridGenerator.initCore gs pr dc).pc_min 0))
      ∧ (matVec4 (FrustumGridGenerator.initCore gs pr dc).grid_to_lidar
          ![XVal.fin gx, XVal.fin gy, XVal.fin gz, XVal.fin 1] 1
        = XVal.fin (gy * (((FrustumGridGenerator.initCore gs pr dc).pc_max 1
            - (FrustumGridGenerator.initCore gs pr dc).pc_min 1) / ((gs 1 : ℚ)))
            + (FrustumGridGenerator.initCore gs pr dc).pc_min 1))
      ∧ (matVec4 (FrustumGridGenerator.initCore gs pr dc).grid_to_lidar
          ![XVal.fin gx, XVal.fin gy, XVal.fin gz, XVal.fin 1] 2
        = XVal.fin (gz * (((FrustumGridGenerator.initCore gs pr dc).pc_max 2
            - (FrustumGridGenerator.initCore gs pr dc).pc_min 2) / ((gs 2 : ℚ)))
            + (FrustumGridGenerator.initCore gs pr dc).pc_min 2))
      ∧ (matVec4 (FrustumGridGenerator.initCore gs pr dc).grid_to_lidar
          ![XVal.fin gx, XVal.fin gy, XVal.fin gz, XVal.fin 1] 3
        = XVal.fin 1) := by
    intro gx gy gz
    rw [initCore_grid_to_lidar]
    refine ⟨?_, ?_, ?_, ?_⟩
    · rw [(matVec4_unproject_apply _ _ _).1]
      simp [XVal.div, hne, FrustumGridGenerator.initCore]
      ring
    · rw [(matVec4_unproject_apply _ _ _).2.1]
      simp [XVal.div, hne, FrustumGridGenerator.initCore]
      ring
    · rw [(matVec4_unproject_apply _ _ _).2.2.1]
      simp [XVal.div, hne, FrustumGridGenerator.initCore]
      ring
    · rw [(matVec4_unproject_apply _ _ _).2.2.2]
      simp
  refine ⟨dif_pos (fun i => (hpos i).le), ?_, hmat, ?_, ?_, ?_⟩
  · intro i
    have hz : gs i ≠ 0 := (hpos i).ne'
    simp [FrustumGridGenerator.initCore, XVal.div, hne i, hz]
  · refine ((hmat (1/2) (1/2) (1/2)).1).trans ?_
    congr 1
    ring
  · refine ((hmat (1/2) (1/2) (1/2)).2.1).trans ?_
    congr 1
    ring
  · refine ((hmat (1/2) (1/2) (1/2)).2.2.1).trans ?_
    congr 1
    ring

/-- Witness for C4, at the configuration `grid_size = (1, 2, 4)`,
`pc_range = [-1, -2, -3, 1, 2, 5]`: the voxel size on axis 0 is `2` and the
grid-to-LiDAR matrix sends the index point `(0.5, 0.5, 0.5, 1)` to the world
coordinate `0 = -1 + 0.5 · 2` on axis 0. -/
theorem c4_witness :
    (FrustumGridGenerator.initCore ![1, 2, 4] ![-1, -2, -3, 1, 2, 5]
        ⟨2, 0, 2⟩).voxel_size 0 = XVal.fin 2
    ∧ matVec4 (FrustumGridGenerator.initCore ![1, 2, 4] ![-1, -2, -3, 1, 2, 5]
        ⟨2, 0, 2⟩).grid_to_lidar
        ![XVal.fin (1/2), XVal.fin (1/2), XVal.fin (1/2), XVal.fin 1] 0
      = XVal.fin 0 := by
  have h := c4_theorem ![1, 2, 4] ![-1, -2, -3, 1, 2, 5] ⟨2, 0, 2⟩ (by decide)
  constructor
  · rw [h.2.1 0]
    decide
  · rw [h.2.2.2.1]
    decide

/-- Claim C5 (confirmed): the constructed voxel grid has shape
`[1, X, Y, Z, 3]` (the index types of `voxel_grid`), is exactly
`build_voxel_grid`, which permutes the mesh primitive's `X, Z, Y` spatial
axes to `X, Y, Z` before adding the `0.5` center offset, and its entry at
`(x, y, z)` is the coordinate `(x + 0.5, y + 0.5, z + 0.5)` in canonical
`X, Y, Z` order. -/
theorem c5_theorem :
    (∀ (gs : Fin 3 → ℤ) (pr : Fin 6 → ℚ) (dc : DiscCfg),
        (FrustumGridGenerator.initCore gs pr dc).voxel_grid
          = build_voxel_grid (gs 0).toNat (gs 1).toNat (gs 2).toNat)
    ∧ (∀ (X Y Z : ℕ) (b : Fin 1) (x : Fin X) (y : Fin Y) (z : Fin Z)
        (c : Fin 3),
        build_voxel_grid X Y Z b x y z c
          = create_meshgrid3d X Z Y b x z y c + 1/2)
    ∧ (∀ (X Y Z : ℕ) (b : Fin 1) (x : Fin X) (y : Fin Y) (z : Fin Z),
        (fun c => build_voxel_grid X Y Z b x y z c)
          = ![(x : ℚ) + 1/2, (y : ℚ) + 1/2, (z : ℚ) + 1/2]) := by
  refine ⟨fun gs pr dc => rfl, fun X Y Z b x y z c => rfl, ?_⟩
  intro X Y Z b x y z
  funext c
  fin_cases c <;> simp [build_voxel_grid, create_meshgrid3d]

/-- Accessing component 0 of a homogeneous extension. -/
theorem toHomog_zero (p : Fin 3 → XVal) : toHomog p 0 = p 0 := rfl

/-- Accessing component 1 of a homogeneous extension. -/
theorem toHomog_one (p : Fin 3 → XVal) : toHomog p 1 = p 1 := rfl

/-- Accessing component 2 of a homogeneous extension. -/
theorem toHomog_two (p : Fin 3 → XVal) : toHomog p 2 = p 2 := rfl

/-- The appended homogeneous coordinate is 1. -/
theorem toHomog_three (p : Fin 3 → XVal) : toHomog p 3 = XVal.fin 1 := rfl

/-- Component 0 of `transform_points`, by definitional unfolding. -/
theorem transform_points_zero (M : Fin 4 → Fin 4 → XVal) (p : Fin 3 → XVal) :
    transform_points M p 0
      = fromHomog (matVec4 M (toHomog p) 0) (matVec4 M (toHomog p) 3) := rfl

/-- Component 1 of `transform_points`, by definitional unfolding. -/
theorem transform_points_one (M : Fin 4 → Fin 4 → XVal) (p : Fin 3 → XVal) :
    transform_points M p 1
      = fromHomog (matVec4 M (toHomog p) 1) (matVec4 M (toHomog p) 3) := rfl

/-- Component 2 of `transform_points`, by definitional unfolding. -/
theorem transform_points_two (M : Fin 4 → Fin 4 → XVal) (p : Fin 3 → XVal) :
    transform_points M p 2
      = fromHomog (matVec4 M (toHomog p) 2) (matVec4 M (toHomog p) 3) := rfl

/-- Column 0 of a product with the unprojection matrix. -/
theorem matMul4_unproject_col0 (A : Fin 4 → Fin 4 → XVal) (pm : Fin 3 → ℚ)
    (vs : Fin 3 → XVal) (i : Fin 4) :
    matMul4 A (FrustumGridGenerator.grid_to_lidar_unproject pm vs) i 0
      = A i 0 * vs 0 + A i 1 * XVal.fin 0 + A i 2 * XVal.fin 0
        + A i 3 * XVal.fin 0 := rfl

/-- Column 1 of a product with the unprojection matrix. -/
theorem matMul4_unproject_col1 (A : Fin 4 → Fin 4 → XVal) (pm : Fin 3 → ℚ)
    (vs : Fin 3 → XVal) (i : Fin 4) :
    matMul4 A (FrustumGridGenerator.grid_to_lidar_unproject pm vs) i 1
      = A i 0 * XVal.fin 0 + A i 1 * vs 1 + A i 2 * XVal.fin 0
        + A i 3 * XVal.fin 0 := rfl

/-- Column 2 of a product with the unprojection matrix. -/
theorem matMul4_unproject_col2 (A : Fin 4 → Fin 4 → XVal) (pm : Fin 3 → ℚ)
    (vs : Fin 3 → XVal) (i : Fin 4) :
    matMul4 A (FrustumGridGenerator.grid_to_lidar_unproject pm vs) i 2
      = A i 0 * XVal.fin 0 + A i 1 * XVal.fin 0 + A i 2 * vs 2
        + A i 3 * XVal.fin 0 := rfl

/-- Column 3 of a product with the unprojection matrix. -/
theorem matMul4_unproject_col3 (A : Fin 4 → Fin 4 → XVal) (pm : Fin 3 → ℚ)
    (vs : Fin 3 → XVal) (i : Fin 4) :
    matMul4 A (FrustumGridGenerator.grid_to_lidar_unproject pm vs) i 3
      = A i 0 * XVal.fin (pm 0) + A i 1 * XVal.fin (pm 1)
        + A i 2 * XVal.fin (pm 2) + A i 3 * XVal.fin 1 := rfl

/-- Claim C6 (confirmed): `transform_grid` succeeds for equal batches and, per
camera `b`, forms the combined matrix as the product
`lidar_to_cam[b] · grid_to_lidar` (in that order), applies it through the
homogeneous transform to the voxel center of the shared batch-1 grid at
`(x, y, z)` — the same center for every `b`, as `repeat_interleave` only
replicates — and emits the result with the camera batch index leading
followed by `(X, Y, Z)`.  When the extrinsic's bottom row is `[0,0,0,1]`, the
combined action on a voxel center spelled out per component is the extrinsic
applied to the LiDAR-space point `voxel_size · center + pc_min`. -/
theorem c6_theorem {B X Y Z : ℕ} (disc : DiscCfg)
    (pc_min : Fin 3 → ℚ) (vsz : Fin 3 → ℚ)
    (voxel_grid : Fin 1 → Fin X → Fin Y → Fin Z → Fin 3 → ℚ)
    (lidar_to_cam : Fin B → Fin 4 → Fin 4 → ℚ)
    (cam_to_img : Fin B → Fin 3 → Fin 4 → ℚ) :
    FrustumGridGenerator.transform_grid disc voxel_grid
        (FrustumGridGenerator.grid_to_lidar_unproject pc_min
          (fun i => XVal.fin (vsz i)))
        lidar_to_cam cam_to_img
      = some (transform_grid_core disc voxel_grid
          (FrustumGridGenerator.grid_to_lidar_unproject pc_min
            (fun i => XVal.fin (vsz i)))
          lidar_to_cam cam_to_img)
    ∧ (∀ (b : Fin B) (x : Fin X) (y : Fin Y) (z : Fin Z),
        transform_grid_core disc voxel_grid
            (FrustumGridGenerator.grid_to_lidar_unproject pc_min
              (fun i => XVal.fin (vsz i)))
            lidar_to_cam cam_to_img b x y z
          = ![(project_to_image (fun i j => XVal.fin (cam_to_img b i j))
                (camera_grid
                  (FrustumGridGenerator.grid_to_lidar_unproject pc_min
                    (fun i => XVal.fin (vsz i)))
                  voxel_grid lidar_to_cam b x y z)).1 0,
              (project_to_image (fun i j => XVal.fin (cam_to_img b i j))
                (camera_grid
                  (FrustumGridGenerator.grid_to_lidar_unproject pc_min
                    (fun i => XVal.fin (vsz i)))
                  voxel_grid lidar_to_cam b x y z)).1 1,
              bin_depths disc
                (project_to_image (fun i j => XVal.fin (cam_to_img b i j))
                  (camera_grid
                    (FrustumGridGenerator.grid_to_lidar_unproject pc_min
                      (fun i => XVal.fin (vsz i)))
                    voxel_grid lidar_to_cam b x y z)).2])
    ∧ (∀ (b : Fin B) (x : Fin X) (y : Fin Y) (z : Fin Z),
        camera_grid
            (FrustumGridGenerator.grid_to_lidar_unproject pc_min
              (fun i => XVal.fin (vsz i)))
            voxel_grid lidar_to_cam b x y z
          = transform_points
              (matMul4 (fun i j => XVal.fin (lidar_to_cam b i j))
                (FrustumGridGenerator.grid_to_lidar_unproject pc_min
                  (fun i => XVal.fin (vsz i))))
              (fun c => XVal.fin (voxel_grid 0 x y z c)))
    ∧ (∀ (b : Fin B) (x : Fin X) (y : Fin Y) (z : Fin Z),
        (∀ j : Fin 4, lidar_to_cam b 3 j = if j = 3 then 1 else 0) →
        (camera_grid
            (FrustumGridGenerator.grid_to_lidar_unproject pc_min
              (fun i => XVal.fin (vsz i)))
            voxel_grid lidar_to_cam b x y z 0
          = XVal.fin
              (lidar_to_cam b 0 0 * (vsz 0 * voxel_grid 0 x y z 0 + pc_min 0)
              + lidar_to_cam b 0 1 * (vsz 1 * voxel_grid 0 x y z 1 + pc_min 1)
              + lidar_to_cam b 0 2 * (vsz 2 * voxel_grid 0 x y z 2 + pc_min 2)
              + lidar_to_cam b 0 3))
        ∧ (camera_grid
            (FrustumGridGenerator.grid_to_lidar_unproject pc_min
              (fun i => XVal.fin (vsz i)))
            voxel_grid lidar_to_cam b x y z 1
          = XVal.fin
              (lidar_to_cam b 1 0 * (vsz 0 * voxel_grid 0 x y z 0 + pc_min 0)
              + lidar_to_cam b 1 1 * (vsz 1 * voxel_grid 0 x y z 1 + pc_min 1)
              + lidar_to_cam b 1 2 * (vsz 2 * voxel_grid 0 x y z 2 + pc_min 2)
              + lidar_to_cam b 1 3))
        ∧ (camera_grid
            (FrustumGridGenerator.grid_to_lidar_unproject pc_min
              (fun i => XVal.fin (vsz i)))
            voxel_grid lidar_to_cam b x y z 2
          = XVal.fin
              (lidar_to_cam b 2 0 * (vsz 0 * voxel_grid 0 x y z 0 + pc_min 0)
              + lidar_to_cam b 2 1 * (vsz 1 * voxel_grid 0 x y z 1 + pc_min 1)
              + lidar_to_cam b 2 2 * (vsz 2 * voxel_grid 0 x y z 2 + pc_min 2)
              + lidar_to_cam b 2 3))) := by
  refine ⟨?_, fun b x y z => rfl, fun b x y z => rfl, ?_⟩
  · unfold FrustumGridGenerator.transform_grid
    rw [dif_pos rfl]
    rfl
  · intro b x y z hrow
    have h0 := hrow 0
    have h1 := hrow 1
    have h2 := hrow 2
    have h3 := hrow 3
    refine ⟨?_, ?_, ?_⟩
    · show transform_points _ _ 0 = _
      rw [transform_points_zero]
      simp only [matVec4, dot4, toHomog_zero, toHomog_one, toHomog_two,
        toHomog_three, matMul4_unproject_col0, matMul4_unproject_col1,
        matMul4_unproject_col2, matMul4_unproject_col3]
      simp only [h0, h1, h2, h3]
      simp [fromHomog]
      ring
    · show transform_points _ _ 1 = _
      rw [transform_points_one]
      simp only [matVec4, dot4, toHomog_zero, toHomog_one, toHomog_two,
        toHomog_three, matMul4_unproject_col0, matMul4_unproject_col1,
        matMul4_unproject_col2, matMul4_unproject_col3]
      simp only [h0, h1, h2, h3]
      simp [fromHomog]
      ring
    · show transform_points _ _ 2 = _
      rw [transform_points_two]
      simp only [matVec4, dot4, toHomog_zero, toHomog_one, toHomog_two,
        toHomog_three, matMul4_unproject_col0, matMul4_unproject_col1,
        matMul4_unproject_col2, matMul4_unproject_col3]
      simp only [h0, h1, h2, h3]
      simp [fromHomog]
      ring

/-- Witness for C6: for a one-voxel grid with unit voxel size, zero minima and
the identity extrinsic, the camera-frame point of the voxel center is
`(0.5, 0.5, 0.5)`. -/
theorem c6_witness :
    camera_grid
        (FrustumGridGenerator.grid_to_lidar_unproject ![0, 0, 0]
          (fun i => XVal.fin (![1, 1, 1] i)))
        (build_voxel_grid 1 1 1) idExtrinsic 0 0 0 0 0
      = XVal.fin (1/2) := by
  have h := (c6_theorem ⟨2, 0, 2⟩ ![0, 0, 0] ![1, 1, 1] (build_voxel_grid 1 1 1)
    idExtrinsic orthoProj).2.2.2 0 0 0 0 (by decide)
  rw [h.1]
  decide

/-- Claim C7, counterexample: in the batch with image shapes `(1, 1)` and
`(4, 4)` a larger camera is present (`1 < 4`, the batchwide maximum width),
yet the coordinate at the smaller camera's native boundary — its maximum
pixel index `1 - 1 = 0` — normalizes to exactly `-1`: the claim that such a
coordinate never normalizes to exactly `±1` fails for a one-pixel-wide
camera. -/
theorem c7_counterexample :
    (shapes14 0).2 < vmax (fun j => (shapes14 j).2)
    ∧ normOne (XVal.fin ((shapes14 0).2 - 1)) (vmax (fun j => (shapes14 j).2))
      = XVal.fin (-1) := by
  constructor <;> decide

/-- Claim C7 (corrected): `forward` normalizes per axis with
`2·raw/(extent - 1) - 1` where the extent is the batchwide maximum image
width for `u`, the batchwide maximum image height for `v`, and `num_bins` for
the depth bin — in exactly that axis correspondence.  With heterogeneous
image shapes in one batch, a coordinate at a smaller camera's maximum-index
boundary (`w - 1` for width `w`, `h - 1` for height `h`) does not normalize
to `±1` when a larger camera is present, provided the smaller extent is at
least `2`: the value lies strictly inside `(-1, 1)`; for a camera of width or
height `1`, however, the boundary coordinate `0` normalizes to exactly `-1`
whenever any larger camera is present. -/
theorem c7_theorem (gen : FrustumGridGenerator) {bL m : ℕ}
    (lidar_to_cam : Fin bL → Fin 4 → Fin 4 → ℚ)
    (cam_to_img : Fin bL → Fin 3 → Fin 4 → ℚ)
    (image_shape : Fin (m + 1) → ℚ × ℚ) :
    FrustumGridGenerator.forward gen lidar_to_cam cam_to_img image_shape
      = some (FrustumGridGenerator.forward_core gen lidar_to_cam cam_to_img
          image_shape)
    ∧ (∀ (b : Fin bL) (x : Fin gen.X) (y : Fin gen.Y) (z : Fin gen.Z),
        (FrustumGridGenerator.forward_core gen lidar_to_cam cam_to_img
            image_shape b x y z 0
          = maskVal gen.out_of_bounds_val
              (normOne
                (transform_grid_core gen.disc gen.voxel_grid gen.grid_to_lidar
                  lidar_to_cam cam_to_img b x y z 0)
                (vmax (fun i => (image_shape i).2))))
        ∧ (FrustumGridGenerator.forward_core gen lidar_to_cam cam_to_img
            image_shape b x y z 1
          = maskVal gen.out_of_bounds_val
              (normOne
                (transform_grid_core gen.disc gen.voxel_grid gen.grid_to_lidar
                  lidar_to_cam cam_to_img b x y z 1)
                (vmax (fun i => (image_shape i).1))))
        ∧ (FrustumGridGenerator.forward_core gen lidar_to_cam cam_to_img
            image_shape b x y z 2
          = maskVal gen.out_of_bounds_val
              (normOne
                (transform_grid_core gen.disc gen.voxel_grid gen.grid_to_lidar
                  lidar_to_cam cam_to_img b x y z 2)
                ((gen.disc.num_bins : ℚ)))))
    ∧ (∀ i : Fin (m + 1),
        2 ≤ (image_shape i).2 →
        (image_shape i).2 < vmax (fun j => (image_shape j).2) →
        normOne (XVal.fin ((image_shape i).2 - 1))
            (vmax (fun j => (image_shape j).2))
          = XVal.fin (2 * ((image_shape i).2 - 1)
              / (vmax (fun j => (image_shape j).2) - 1) - 1)
        ∧ -1 < 2 * ((image_shape i).2 - 1)
            / (vmax (fun j => (image_shape j).2) - 1) - 1
        ∧ 2 * ((image_shape i).2 - 1)
            / (vmax (fun j => (image_shape j).2) - 1) - 1 < 1)
    ∧ (∀ i : Fin (m + 1),
        2 ≤ (image_shape i).1 →
        (image_shape i).1 < vmax (fun j => (image_shape j).1) →
        normOne (XVal.fin ((image_shape i).1 - 1))
            (vmax (fun j => (image_shape j).1))
          = XVal.fin (2 * ((image_shape i).1 - 1)
              / (vmax (fun j => (image_shape j).1) - 1) - 1)
        ∧ -1 < 2 * ((image_shape i).1 - 1)
            / (vmax (fun j => (image_shape j).1) - 1) - 1
        ∧ 2 * ((image_shape i).1 - 1)
            / (vmax (fun j => (image_shape j).1) - 1) - 1 < 1)
    ∧ (∀ i : Fin (m + 1),
        (image_shape i).2 = 1 →
        1 < vmax (fun j => (image_shape j).2) →
        normOne (XVal.fin ((image_shape i).2 - 1))
            (vmax (fun j => (image_shape j).2))
          = XVal.fin (-1))
    ∧ (∀ i : Fin (m + 1),
        (image_shape i).1 = 1 →
        1 < vmax (fun j => (image_shape j).1) →
        normOne (XVal.fin ((image_shape i).1 - 1))
            (vmax (fun j => (image_shape j).1))
          = XVal.fin (-1)) := by
  refine ⟨FrustumGridGenerator.forward_eq_core gen lidar_to_cam cam_to_img
      image_shape,
    fun b x y z => ⟨rfl, rfl, rfl⟩, ?_, ?_, ?_, ?_⟩
  · intro i h2 hlt
    have hW1 : (0 : ℚ) < vmax (fun j => (image_shape j).2) - 1 := by linarith
    have hpos : (0 : ℚ) < (image_shape i).2 - 1 := by linarith
    refine ⟨?_, ?_, ?_⟩
    · simp [normOne, hW1.ne']
    · have ht : 0 < 2 * ((image_shape i).2 - 1)
          / (vmax (fun j => (image_shape j).2) - 1) := by positivity
      linarith
    · have ht : 2 * ((image_shape i).2 - 1)
          / (vmax (fun j => (image_shape j).2) - 1) < 2 :=
        (div_lt_iff₀ hW1).mpr (by linarith)
      linarith
  · intro i h2 hlt
    have hW1 : (0 : ℚ) < vmax (fun j => (image_shape j).1) - 1 := by linarith
    have hpos : (0 : ℚ) < (image_shape i).1 - 1 := by linarith
    refine ⟨?_, ?_, ?_⟩
    · simp [normOne, hW1.ne']
    · have ht : 0 < 2 * ((image_shape i).1 - 1)
          / (vmax (fun j => (image_shape j).1) - 1) := by positivity
      linarith
    · have ht : 2 * ((image_shape i).1 - 1)
          / (vmax (fun j => (image_shape j).1) - 1) < 2 :=
        (div_lt_iff₀ hW1).mpr (by linarith)
      linarith
  · intro i h1 hE
    have hW1 : (0 : ℚ) < vmax (fun j => (image_shape j).2) - 1 := by linarith
    rw [h1]
    simp [normOne, hW1.ne']
  · intro i h1 hE
    have hW1 : (0 : ℚ) < vmax (fun j => (image_shape j).1) - 1 := by linarith
    rw [h1]
    simp [normOne, hW1.ne']

/-- Witness for C7: in the batch with image shapes `(2,2)` and `(4,4)`, the
smaller camera's boundary column and row `2 - 1 = 1` normalize against the
batch maxima `4` to a value strictly inside `(-1, 1)`; in the batch with
shapes `(1,1)` and `(4,4)`, the one-pixel camera's boundary coordinate `0`
normalizes to exactly `-1`. -/
theorem c7_witness :
    (normOne (XVal.fin ((shapes24 0).2 - 1)) (vmax (fun j => (shapes24 j).2))
      = XVal.fin (2 * ((shapes24 0).2 - 1)
          / (vmax (fun j => (shapes24 j).2) - 1) - 1)
    ∧ -1 < 2 * ((shapes24 0).2 - 1)
        / (vmax (fun j => (shapes24 j).2) - 1) - 1
    ∧ 2 * ((shapes24 0).2 - 1)
        / (vmax (fun j => (shapes24 j).2) - 1) - 1 < 1)
    ∧ (normOne (XVal.fin ((shapes24 0).1 - 1)) (vmax (fun j => (shapes24 j).1))
      = XVal.fin (2 * ((shapes24 0).1 - 1)
          / (vmax (fun j => (shapes24 j).1) - 1) - 1)
    ∧ -1 < 2 * ((shapes24 0).1 - 1)
        / (vmax (fun j => (shapes24 j).1) - 1) - 1
    ∧ 2 * ((shapes24 0).1 - 1)
        / (vmax (fun j => (shapes24 j).1) - 1) - 1 < 1)
    ∧ normOne (XVal.fin ((shapes14 0).2 - 1)) (vmax (fun j => (shapes14 j).2))
      = XVal.fin (-1) :=
  ⟨(c7_theorem gen9 idExtrinsic orthoProj shapes24).2.2.1 0
      (by decide) (by decide),
   (c7_theorem gen9 idExtrinsic orthoProj shapes24).2.2.2.1 0
      (by decide) (by decide),
   (c7_theorem gen9 idExtrinsic orthoProj shapes14).2.2.2.2.1 0
      (by decide) (by decide)⟩

/-- Witness for C2's amended form: a negative grid extent makes construction
fail. -/
theorem c2_witness :
    FrustumGridGenerator.init ![1, -1, 1] ![0, 0, 0, 1, 1, 1] ⟨2, 0, 2⟩
      = none :=
  (c2_theorem ![1, -1, 1] ![0, 0, 0, 1, 1, 1] ⟨2, 0, 2⟩).mpr ⟨1, by decide⟩

/-- Witness for C3's amended form: a `cam_to_img` batch of 2 against a
`lidar_to_cam` batch of 1 makes `forward` fail. -/
theorem c3_witness :
    FrustumGridGenerator.forward gen9 idExtrinsic
        (fun (_ : Fin 2) i j => orthoProj 0 i j) shape22 = none :=
  (c3_theorem gen9 idExtrinsic (fun _ i j => orthoProj 0 i j) shape22).mpr
    (Or.inl (by decide))
